import Mathlib

/-!
Verification of the order-creation saga of the order service
(`src/order-service/app.py`).

Shallow embedding: prices are rationals (`ℚ`), the database is an explicit
`Store` value threaded through the functions, and each remote HTTP call
(billing balance read, billing withdraw, notification send) is represented
by an oracle value describing how the remote interaction went
(success / connection error / non-2xx status / unexpected exception), so a
single execution of the endpoint is a pure function of the request, the
store, and the three oracles.  Raising `HTTPException(status_code, detail)`
is modelled as returning `Except.error ⟨status_code, detail⟩`; a normal
return from the create endpoint corresponds to HTTP 201 (the route's
declared `status_code`).
-/

namespace OrderService

/-- Python `round` (banker's rounding, ties to even) on a rational. -/
def pyRound (x : ℚ) : ℤ :=
  let f := x.floor
  if x - f < mkRat 1 2 then f
  else if x - f > mkRat 1 2 then f + 1
  else if f % 2 = 0 then f else f + 1

/-- `round(v, 2)`: round to two decimal places. -/
def round2 (x : ℚ) : ℚ := mkRat (pyRound (x * 100)) 100

/-- Python `str.strip()`: drop whitespace from both ends. -/
def pyStrip (s : String) : String :=
  ⟨((s.data.dropWhile (fun c => c.isWhitespace)).reverse.dropWhile
      (fun c => c.isWhitespace)).reverse⟩

/-- Value of a non-empty run of decimal digits, `none` on any other
character. -/
def digitsVal : ℕ → List Char → Option ℕ
  | acc, [] => some acc
  | acc, c :: cs =>
    if c.isDigit then digitsVal (10 * acc + (c.toNat - '0'.toNat)) cs else none

/-- Python `int(s)` on a string: optional surrounding whitespace, optional
sign, decimal digits; `None` models the raised `ValueError`. -/
def pyInt? (s : String) : Option ℤ :=
  match (pyStrip s).data with
  | [] => none
  | '-' :: rest => if rest = [] then none else (digitsVal 0 rest).map (fun n => -(n : ℤ))
  | '+' :: rest => if rest = [] then none else (digitsVal 0 rest).map (fun n => (n : ℤ))
  | rest => (digitsVal 0 rest).map (fun n => (n : ℤ))

/-- Python `f"{p:.2f}"` for a non-negative price that already has at most
two decimal places. -/
def formatPrice2 (q : ℚ) : String :=
  let k := pyRound (q * 100)
  toString (k / 100) ++ "." ++ (if k % 100 < 10 then "0" else "") ++ toString (k % 100)

/-- `OrderStatus` enum (`app.py`, lines 37-40). -/
inductive OrderStatus where
  | new
  | paid
  | cancelled
deriving DecidableEq, Repr

/-- The string value stored in the database column (`OrderStatus.NEW.value`
etc.). -/
def OrderStatus.value : OrderStatus → String
  | .new => "new"
  | .paid => "paid"
  | .cancelled => "cancelled"

/-- The `Order` ORM row (`app.py`, lines 59-69).  `status` is a string
column, as in the source. -/
structure Order where
  id : ℕ
  price : ℚ
  product_name : String
  status : String
  created_at : ℕ
  updated_at : ℕ
  user_id : ℤ
deriving DecidableEq, Repr

/-- The orders table plus the autoincrement counter. -/
structure Store where
  nextId : ℕ
  orders : List Order
deriving DecidableEq, Repr

/-- Database well-formedness: the autoincrement counter is fresh, i.e.
strictly above every existing row id. -/
def Store.WF (st : Store) : Prop := ∀ o ∈ st.orders, o.id < st.nextId

/-- An `HTTPException(status_code, detail)`. -/
structure HTTPError where
  status_code : ℕ
  detail : String
deriving DecidableEq, Repr

/-- A validated `OrderCreateRequest` body (`app.py`, lines 72-87), after
the field validators ran. -/
structure OrderCreateRequest where
  price : ℚ
  product_name : String
deriving DecidableEq, Repr

/-- The `OrderCreateResponse` body (`app.py`, lines 103-110). -/
structure OrderCreateResponse where
  order_id : ℕ
  price : ℚ
  product_name : String
  status : String
  user_id : ℤ
  message : String
deriving DecidableEq, Repr

/-- Outcome of the HTTP interaction behind `get_user_balance`:
2xx with a well-formed body, a connection/timeout failure
(`httpx.RequestError`), a non-2xx status (`httpx.HTTPStatusError`),
or a 2xx whose body fails `BalanceResponse` parsing (any other
exception). -/
inductive BalanceCallResult where
  | success (balance : ℚ)
  | requestError (msg : String)
  | httpError (code : ℕ) (msg : String)
  | malformedBody (msg : String)
deriving DecidableEq, Repr

/-- Outcome of the HTTP interaction behind `withdraw_funds`. -/
inductive WithdrawCallResult where
  | success
  | requestError (msg : String)
  | httpError (code : ℕ) (msg : String)
  | unexpectedError (msg : String)
deriving DecidableEq, Repr

/-- Outcome of the HTTP interaction behind `send_notification`. -/
inductive NotifyCallResult where
  | success
  | requestError (msg : String)
  | httpError (code : ℕ) (msg : String)
  | unexpectedError (msg : String)
deriving DecidableEq, Repr

/-- `get_user_balance` (`app.py`, lines 184-207): maps the remote
interaction to the returned balance or the raised `HTTPException`. -/
def get_user_balance : BalanceCallResult → Except HTTPError ℚ
  | .success b => .ok b
  | .requestError m => .error ⟨503, "Failed to connect to billing service: " ++ m⟩
  | .httpError c m => .error ⟨c, "Billing service error: " ++ m⟩
  | .malformedBody m => .error ⟨500, "Failed to get user balance: " ++ m⟩

/-- `withdraw_funds` (`app.py`, lines 209-257): maps the remote interaction
to `True` or the raised `HTTPException`. -/
def withdraw_funds : WithdrawCallResult → Except HTTPError Bool
  | .success => .ok true
  | .requestError _ => .error ⟨503, "Failed to process payment: billing service unavailable"⟩
  | .httpError c _ =>
      if c = 400 then .error ⟨400, "Insufficient funds or invalid amount"⟩
      else if c = 404 then .error ⟨404, "User not found in billing system"⟩
      else .error ⟨502, "Payment processing failed: billing service error"⟩
  | .unexpectedError _ => .error ⟨500, "Payment processing failed: internal error"⟩

/-- `send_notification` (`app.py`, lines 259-290): every failure is caught
and turned into `False`; nothing propagates. -/
def send_notification : NotifyCallResult → Bool
  | .success => true
  | .requestError _ => false
  | .httpError _ _ => false
  | .unexpectedError _ => false

/-- `get_user_id` (`app.py`, lines 136-156).  The header value is an
optional string; Python's `int(...)` parse is modelled by
`pyInt?`. -/
def get_user_id (h : Option String) : Except HTTPError ℤ :=
  match h with
  | none => .error ⟨400, "X-Authenticated-User-ID header is required"⟩
  | some s =>
    if s = "" then .error ⟨400, "X-Authenticated-User-ID header is required"⟩
    else
      match pyInt? s with
      | none => .error ⟨400, "Invalid User ID format. Must be an integer"⟩
      | some uid =>
        if uid ≤ 0 then .error ⟨400, "User ID must be greater than 0"⟩
        else .ok uid

/-- Validation of the `OrderCreateRequest` body (`app.py`, lines 72-87):
the `gt=0` field constraint and the two `@validator`s.  A pydantic
validation failure makes FastAPI answer 422. -/
def validateOrderCreateRequest (price : ℚ) (product_name : String) :
    Except HTTPError OrderCreateRequest :=
  if price ≤ 0 then .error ⟨422, "price must be greater than 0"⟩
  else if product_name.length < 1 ∨ product_name.length > 255 then
    .error ⟨422, "product_name length out of bounds"⟩
  else if pyStrip product_name = "" then .error ⟨422, "product_name cannot be empty"⟩
  else .ok ⟨round2 price, pyStrip product_name⟩

/-- `create_order` (`app.py`, lines 159-170): insert a row in status
`new`. -/
def create_order (price : ℚ) (product_name : String) (user_id : ℤ) (now : ℕ)
    (st : Store) : Order × Store :=
  let o : Order :=
    ⟨st.nextId, price, product_name, OrderStatus.new.value, now, now, user_id⟩
  (o, ⟨st.nextId + 1, st.orders ++ [o]⟩)

/-- Update the status of the first row with the given id (the
`db.query(...).filter(...).first()` row). -/
def setStatusFirst (oid : ℕ) (s : OrderStatus) (now : ℕ) : List Order → List Order
  | [] => []
  | o :: rest =>
    if o.id == oid then { o with status := s.value, updated_at := now } :: rest
    else o :: setStatusFirst oid s now rest

/-- `update_order_status` (`app.py`, lines 172-182): `ValueError` when the
row does not exist, otherwise the refreshed row and the new store. -/
def update_order_status (oid : ℕ) (s : OrderStatus) (now : ℕ) (st : Store) :
    Except String (Order × Store) :=
  match st.orders.find? (fun o => o.id == oid) with
  | none => .error ("Order with id " ++ toString oid ++ " not found")
  | some o =>
    .ok ({ o with status := s.value, updated_at := now },
         { st with orders := setStatusFirst oid s now st.orders })

/-- Result of one execution of the create endpoint: the HTTP outcome
(`Except.ok` = a 201 body, `Except.error` = a raised `HTTPException`),
the database afterwards, and logs of the side-effecting calls that were
attempted: notification sends (recipient, message), billing debits
(user, amount), and order-status updates (order id, new status). -/
structure SagaResult where
  response : Except HTTPError OrderCreateResponse
  store : Store
  notifs : List (ℤ × String)
  debits : List (ℤ × ℚ)
  updates : List (ℕ × OrderStatus)
deriving Repr

/-- `create_order_endpoint` (`app.py`, lines 296-386), after the request
body and header were validated.  Mirrors the source control flow: the
outer `try` re-raises any `HTTPException` (so a failed balance read
surfaces without touching the order), the inner `try` around the withdraw
cancels the order on an `HTTPException` from `withdraw_funds`, and a
`ValueError` from `update_order_status` is answered with 400. -/
def create_order_endpoint (req : OrderCreateRequest) (user_id : ℤ)
    (bal : BalanceCallResult) (wd : WithdrawCallResult) (nt : NotifyCallResult)
    (now : ℕ) (st : Store) : SagaResult :=
  -- Step 1: create order with initial status 'new'
  let (order, st1) := create_order req.price req.product_name user_id now st
  -- Step 2: get user balance from billing service
  match get_user_balance bal with
  | .error e =>
    -- the HTTPException propagates through `except HTTPException: raise`
    ⟨.error e, st1, [], [], []⟩
  | .ok user_balance =>
    -- Step 3: check if user has sufficient balance
    if req.price > user_balance then
      match update_order_status order.id .cancelled now st1 with
      | .error msg => ⟨.error ⟨400, msg⟩, st1, [], [], []⟩
      | .ok (order2, st2) =>
        let nmsg := "Order " ++ toString order2.id ++ " cancelled, insufficient funds"
        let _ := send_notification nt
        ⟨.ok ⟨order2.id, order2.price, order2.product_name, order2.status, user_id,
              "Order cancelled due to insufficient funds"⟩,
         st2, [(user_id, nmsg)], [], [(order.id, .cancelled)]⟩
    else
      -- Step 4: withdraw funds from user account
      match withdraw_funds wd with
      | .ok _ =>
        -- Step 5: update order status to paid
        match update_order_status order.id .paid now st1 with
        | .error msg => ⟨.error ⟨400, msg⟩, st1, [], [(user_id, req.price)], []⟩
        | .ok (order2, st2) =>
          let pstr := formatPrice2 order2.price
          let nmsg := "Order " ++ toString order2.id ++ " paid successfully. Amount: $" ++ pstr
          let _ := send_notification nt
          ⟨.ok ⟨order2.id, order2.price, order2.product_name, order2.status, user_id,
                "Order created and paid successfully. $" ++ pstr ++
                  " deducted from your account."⟩,
           st2, [(user_id, nmsg)], [(user_id, req.price)], [(order.id, .paid)]⟩
      | .error e =>
        -- if withdrawal fails, mark order as cancelled
        match update_order_status order.id .cancelled now st1 with
        | .error msg => ⟨.error ⟨400, msg⟩, st1, [], [(user_id, req.price)], []⟩
        | .ok (order2, st2) =>
          let nmsg := "Order " ++ toString order2.id ++ " cancelled due to payment processing error"
          let _ := send_notification nt
          ⟨.error ⟨e.status_code, "Order created but payment failed: " ++ e.detail⟩,
           st2, [(user_id, nmsg)], [(user_id, req.price)], [(order.id, .cancelled)]⟩

/-- The full create-order call: FastAPI resolves the header dependency and
validates the body before the endpoint body runs, so either failure
answers without touching the store. -/
def handle_create_order (header : Option String) (price : ℚ) (product_name : String)
    (bal : BalanceCallResult) (wd : WithdrawCallResult) (nt : NotifyCallResult)
    (now : ℕ) (st : Store) : SagaResult :=
  match get_user_id header with
  | .error e => ⟨.error e, st, [], [], []⟩
  | .ok uid =>
    match validateOrderCreateRequest price product_name with
    | .error e => ⟨.error e, st, [], [], []⟩
    | .ok req => create_order_endpoint req uid bal wd nt now st

/-- Sort by `created_at` descending (`order_by(Order.created_at.desc())`). -/
def sortByCreatedDesc (l : List Order) : List Order :=
  l.insertionSort (fun a b => b.created_at ≤ a.created_at)

/-- `get_user_orders` (`app.py`, lines 388-434): the list endpoint
`GET /api/v1/orders/{requested_user_id}` with its `skip`/`limit`
pagination. -/
def get_user_orders (requested_user_id : ℤ) (header : Option String)
    (skip limit : ℕ) (st : Store) : Except HTTPError (List Order) :=
  match get_user_id header with
  | .error e => .error e
  | .ok authenticated_user_id =>
    if requested_user_id ≤ 0 then
      .error ⟨400, "User ID must be greater than 0"⟩
    else if requested_user_id ≠ authenticated_user_id then
      .error ⟨403, "You can only access your own orders"⟩
    else
      .ok ((((sortByCreatedDesc
              (st.orders.filter (fun o => o.user_id == requested_user_id)))).drop
              skip).take limit)

/-- The row the saga leaves behind: the order created by this call, with
its final status. -/
def finalRow (req : OrderCreateRequest) (uid : ℤ) (now : ℕ) (st : Store)
    (s : OrderStatus) : Order :=
  ⟨st.nextId, req.price, req.product_name, s.value, now, now, uid⟩

lemma find?_fresh (n : ℕ) (o : Order) (ho : o.id = n) :
    ∀ l : List Order, (∀ x ∈ l, x.id < n) →
      (l ++ [o]).find? (fun x => x.id == n) = some o := by
  intro l
  induction l with
  | nil => simp [List.find?, ho]
  | cons a l ih =>
    intro h
    have ha : (a.id == n) = false := by
      simp only [beq_eq_false_iff_ne, ne_eq]
      exact Nat.ne_of_lt (h a (by simp))
    simpa [List.find?_cons, ha] using ih (fun x hx => h x (by simp [hx]))

lemma setStatusFirst_fresh (n : ℕ) (s : OrderStatus) (now2 : ℕ) (o : Order)
    (ho : o.id = n) :
    ∀ l : List Order, (∀ x ∈ l, x.id < n) →
      setStatusFirst n s now2 (l ++ [o]) =
        l ++ [{ o with status := s.value, updated_at := now2 }] := by
  intro l
  induction l with
  | nil => simp [setStatusFirst, ho]
  | cons a l ih =>
    intro h
    have ha : (a.id == n) = false := by
      simp only [beq_eq_false_iff_ne, ne_eq]
      exact Nat.ne_of_lt (h a (by simp))
    simp only [List.cons_append, setStatusFirst, ha, if_neg Bool.false_ne_true,
      List.cons.injEq, true_and]
    exact ih (fun x hx => h x (by simp [hx]))

/-- Updating the status of the order just inserted with a fresh id finds
exactly that order and rewrites only it. -/
lemma update_fresh (st : Store) (hwf : st.WF) (o : Order) (ho : o.id = st.nextId)
    (s : OrderStatus) (now2 : ℕ) :
    update_order_status st.nextId s now2 ⟨st.nextId + 1, st.orders ++ [o]⟩ =
      .ok ({ o with status := s.value, updated_at := now2 },
           ⟨st.nextId + 1,
            st.orders ++ [{ o with status := s.value, updated_at := now2 }]⟩) := by
  simp only [update_order_status, find?_fresh st.nextId o ho st.orders hwf,
    setStatusFirst_fresh st.nextId s now2 o ho st.orders hwf]

/-- Full characterization of one run of `create_order_endpoint` over a
well-formed store: the four reachable outcomes, with the database, the
logs, and the HTTP outcome of each. -/
theorem endpoint_run (req : OrderCreateRequest) (uid : ℤ) (bal : BalanceCallResult)
    (wd : WithdrawCallResult) (nt : NotifyCallResult) (now : ℕ) (st : Store)
    (hwf : st.WF) :
    create_order_endpoint req uid bal wd nt now st =
      match get_user_balance bal with
      | .error e =>
          ⟨.error e, ⟨st.nextId + 1, st.orders ++ [finalRow req uid now st .new]⟩,
           [], [], []⟩
      | .ok b =>
        if req.price > b then
          ⟨.ok ⟨st.nextId, req.price, req.product_name, OrderStatus.cancelled.value,
                uid, "Order cancelled due to insufficient funds"⟩,
           ⟨st.nextId + 1, st.orders ++ [finalRow req uid now st .cancelled]⟩,
           [(uid, "Order " ++ toString st.nextId ++ " cancelled, insufficient funds")],
           [], [(st.nextId, .cancelled)]⟩
        else
          match withdraw_funds wd with
          | .ok _ =>
              ⟨.ok ⟨st.nextId, req.price, req.product_name, OrderStatus.paid.value,
                    uid, "Order created and paid successfully. $" ++
                      formatPrice2 req.price ++ " deducted from your account."⟩,
               ⟨st.nextId + 1, st.orders ++ [finalRow req uid now st .paid]⟩,
               [(uid, "Order " ++ toString st.nextId ++
                   " paid successfully. Amount: $" ++ formatPrice2 req.price)],
               [(uid, req.price)], [(st.nextId, .paid)]⟩
          | .error e =>
              ⟨.error ⟨e.status_code, "Order created but payment failed: " ++ e.detail⟩,
               ⟨st.nextId + 1, st.orders ++ [finalRow req uid now st .cancelled]⟩,
               [(uid, "Order " ++ toString st.nextId ++
                   " cancelled due to payment processing error")],
               [(uid, req.price)], [(st.nextId, .cancelled)]⟩ := by
  unfold create_order_endpoint create_order
  cases hb : get_user_balance bal with
  | error e => rfl
  | ok b =>
    by_cases hgt : req.price > b
    · simp only [if_pos hgt]
      rw [update_fresh st hwf _ rfl OrderStatus.cancelled now]
      rfl
    · simp only [if_neg hgt]
      cases hw : withdraw_funds wd with
      | ok x =>
        rw [update_fresh st hwf _ rfl OrderStatus.paid now]
        rfl
      | error e =>
        rw [update_fresh st hwf _ rfl OrderStatus.cancelled now]
        rfl

/-- Run outcome when the balance read raises: the exception propagates and
the order row is left as created, in status `new`. -/
lemma run_balance_error (req : OrderCreateRequest) (uid : ℤ) (bal : BalanceCallResult)
    (wd : WithdrawCallResult) (nt : NotifyCallResult) (now : ℕ) (st : Store)
    (e : HTTPError) (hwf : st.WF) (he : get_user_balance bal = .error e) :
    create_order_endpoint req uid bal wd nt now st =
      ⟨.error e, ⟨st.nextId + 1, st.orders ++ [finalRow req uid now st .new]⟩,
       [], [], []⟩ := by
  rw [endpoint_run req uid bal wd nt now st hwf, he]

/-- Run outcome on insufficient funds: order cancelled, 201 body, no
debit. -/
lemma run_insufficient (req : OrderCreateRequest) (uid : ℤ) (bal : BalanceCallResult)
    (wd : WithdrawCallResult) (nt : NotifyCallResult) (now : ℕ) (st : Store)
    (b : ℚ) (hwf : st.WF) (hb : get_user_balance bal = .ok b)
    (hgt : req.price > b) :
    create_order_endpoint req uid bal wd nt now st =
      ⟨.ok ⟨st.nextId, req.price, req.product_name, OrderStatus.cancelled.value,
            uid, "Order cancelled due to insufficient funds"⟩,
       ⟨st.nextId + 1, st.orders ++ [finalRow req uid now st .cancelled]⟩,
       [(uid, "Order " ++ toString st.nextId ++ " cancelled, insufficient funds")],
       [], [(st.nextId, .cancelled)]⟩ := by
  rw [endpoint_run req uid bal wd nt now st hwf, hb]
  simp only [if_pos hgt]

/-- Run outcome when funds suffice and the withdraw succeeds. -/
lemma run_paid (req : OrderCreateRequest) (uid : ℤ) (bal : BalanceCallResult)
    (wd : WithdrawCallResult) (nt : NotifyCallResult) (now : ℕ) (st : Store)
    (b : ℚ) (x : Bool) (hwf : st.WF) (hb : get_user_balance bal = .ok b)
    (hle : ¬req.price > b) (hwd : withdraw_funds wd = .ok x) :
    create_order_endpoint req uid bal wd nt now st =
      ⟨.ok ⟨st.nextId, req.price, req.product_name, OrderStatus.paid.value,
            uid, "Order created and paid successfully. $" ++
              formatPrice2 req.price ++ " deducted from your account."⟩,
       ⟨st.nextId + 1, st.orders ++ [finalRow req uid now st .paid]⟩,
       [(uid, "Order " ++ toString st.nextId ++
           " paid successfully. Amount: $" ++ formatPrice2 req.price)],
       [(uid, req.price)], [(st.nextId, .paid)]⟩ := by
  rw [endpoint_run req uid bal wd nt now st hwf, hb]
  simp only [if_neg hle, hwd]

/-- Run outcome when funds suffice but the withdraw raises. -/
lemma run_wd_error (req : OrderCreateRequest) (uid : ℤ) (bal : BalanceCallResult)
    (wd : WithdrawCallResult) (nt : NotifyCallResult) (now : ℕ) (st : Store)
    (b : ℚ) (e : HTTPError) (hwf : st.WF) (hb : get_user_balance bal = .ok b)
    (hle : ¬req.price > b) (hwd : withdraw_funds wd = .error e) :
    create_order_endpoint req uid bal wd nt now st =
      ⟨.error ⟨e.status_code, "Order created but payment failed: " ++ e.detail⟩,
       ⟨st.nextId + 1, st.orders ++ [finalRow req uid now st .cancelled]⟩,
       [(uid, "Order " ++ toString st.nextId ++
           " cancelled due to payment processing error")],
       [(uid, req.price)], [(st.nextId, .cancelled)]⟩ := by
  rw [endpoint_run req uid bal wd nt now st hwf, hb]
  simp only [if_neg hle, hwd]

/-- Status of the row with the given id after a run. -/
def rowStatus (r : SagaResult) (oid : ℕ) : Option String :=
  (r.store.orders.find? (fun x => x.id == oid)).map (fun o => o.status)

/-- Looking up the freshly created row after a run. -/
lemma rowStatus_append (st : Store) (hwf : st.WF) (resp : Except HTTPError OrderCreateResponse)
    (o : Order) (ho : o.id = st.nextId) (ns : List (ℤ × String))
    (ds : List (ℤ × ℚ)) (us : List (ℕ × OrderStatus)) :
    rowStatus ⟨resp, ⟨st.nextId + 1, st.orders ++ [o]⟩, ns, ds, us⟩ st.nextId =
      some o.status := by
  simp [rowStatus, find?_fresh st.nextId o ho st.orders hwf]

/-- Every `HTTPException` raised by `get_user_id` has status 400. -/
lemma get_user_id_error_code (h : Option String) (e : HTTPError)
    (he : get_user_id h = .error e) : e.status_code = 400 := by
  cases h with
  | none => simp [get_user_id] at he; rw [← he]
  | some s =>
    by_cases hs : s = ""
    · simp [get_user_id, hs] at he; rw [← he]
    · cases hk : pyInt? s with
      | none => simp [get_user_id, hs, hk] at he; rw [← he]
      | some uid =>
        by_cases hu : uid ≤ 0
        · simp [get_user_id, hs, hk, hu] at he; rw [← he]
        · simp [get_user_id, hs, hk, hu] at he

/-- A user id accepted by `get_user_id` is positive. -/
lemma get_user_id_pos (h : Option String) (uid : ℤ)
    (ho : get_user_id h = .ok uid) : 0 < uid := by
  cases h with
  | none => simp [get_user_id] at ho
  | some s =>
    by_cases hs : s = ""
    · simp [get_user_id, hs] at ho
    · cases hk : pyInt? s with
      | none => simp [get_user_id, hs, hk] at ho
      | some v =>
        by_cases hu : v ≤ 0
        · simp [get_user_id, hs, hk, hu] at ho
        · simp [get_user_id, hs, hk, hu] at ho
          rw [← ho]; exact lt_of_not_le hu

/-- Every body-validation failure is answered with 422. -/
lemma validate_error_code (price : ℚ) (nm : String) (e : HTTPError)
    (he : validateOrderCreateRequest price nm = .error e) : e.status_code = 422 := by
  unfold validateOrderCreateRequest at he
  split_ifs at he
  all_goals
    first
      | (injection he with h; subst h; rfl)
      | exact Except.noConfusion he

lemma emptyStore_WF : Store.WF ⟨1, []⟩ := by
  intro o ho
  exact absurd ho (List.not_mem_nil o)

/-- C1 (counterexample): with valid inputs (user 1, price 50, name "book"),
a balance read that fails with a connection error makes the call return a
503 error while the persisted order still has status `new` — a return
path on which the order is neither `paid` nor `cancelled`. -/
theorem create_order_left_new_cex :
    (handle_create_order (some "1") 50 "book"
        (.requestError "connection refused") .success .success 7 ⟨1, []⟩).response =
      .error ⟨503, "Failed to connect to billing service: connection refused"⟩ ∧
    (handle_create_order (some "1") 50 "book"
        (.requestError "connection refused") .success .success 7 ⟨1, []⟩).store.orders =
      [⟨1, 50, "book", "new", 7, 7, 1⟩] ∧
    OrderStatus.new.value ≠ OrderStatus.paid.value ∧
    OrderStatus.new.value ≠ OrderStatus.cancelled.value :=
  ⟨by with_unfolding_all rfl, by with_unfolding_all rfl, by decide, by decide⟩

/-- C1 (amended): over a well-formed store, when the balance read succeeds
the created order's persisted status on return is `paid` or `cancelled`;
but when the balance read fails, the call returns with the order left in
status `new`. -/
theorem create_order_terminal_status (req : OrderCreateRequest) (uid : ℤ)
    (bal : BalanceCallResult) (wd : WithdrawCallResult) (nt : NotifyCallResult)
    (now : ℕ) (st : Store) (hwf : st.WF) :
    (∀ b, get_user_balance bal = .ok b →
      rowStatus (create_order_endpoint req uid bal wd nt now st) st.nextId =
          some OrderStatus.paid.value ∨
        rowStatus (create_order_endpoint req uid bal wd nt now st) st.nextId =
          some OrderStatus.cancelled.value) ∧
    (∀ e, get_user_balance bal = .error e →
      rowStatus (create_order_endpoint req uid bal wd nt now st) st.nextId =
        some OrderStatus.new.value) := by
  constructor
  · intro b hb
    by_cases hgt : req.price > b
    · right
      rw [run_insufficient req uid bal wd nt now st b hwf hb hgt]
      exact rowStatus_append st hwf _ _ rfl _ _ _
    · cases hwd : withdraw_funds wd with
      | ok x =>
        left
        rw [run_paid req uid bal wd nt now st b x hwf hb hgt hwd]
        exact rowStatus_append st hwf _ _ rfl _ _ _
      | error e =>
        right
        rw [run_wd_error req uid bal wd nt now st b e hwf hb hgt hwd]
        exact rowStatus_append st hwf _ _ rfl _ _ _
  · intro e he
    rw [run_balance_error req uid bal wd nt now st e hwf he]
    exact rowStatus_append st hwf _ _ rfl _ _ _

/-- C1 (witness): a concrete successful run ends `paid` or `cancelled`. -/
theorem create_order_terminal_status_witness :
    rowStatus (create_order_endpoint ⟨50, "book"⟩ 1 (.success 100) .success .success
        7 ⟨1, []⟩) 1 = some OrderStatus.paid.value ∨
      rowStatus (create_order_endpoint ⟨50, "book"⟩ 1 (.success 100) .success .success
        7 ⟨1, []⟩) 1 = some OrderStatus.cancelled.value := by
  have h := create_order_terminal_status ⟨50, "book"⟩ 1 (.success 100) .success
    .success 7 ⟨1, []⟩ emptyStore_WF
  exact h.1 100 rfl

/-- C2 (counterexample): with valid inputs (user 2, price 30), a balance
read that times out makes the call return 503, but the order is NOT
transitioned to `cancelled` (it stays `new`) and no notification is
fired. -/
theorem balance_fail_no_compensation_cex :
    (handle_create_order (some "2") 30 "lamp" (.requestError "timed out")
        .success .success 9 ⟨1, []⟩).store.orders =
      [⟨1, 30, "lamp", "new", 9, 9, 2⟩] ∧
    (handle_create_order (some "2") 30 "lamp" (.requestError "timed out")
        .success .success 9 ⟨1, []⟩).notifs = [] ∧
    (handle_create_order (some "2") 30 "lamp" (.requestError "timed out")
        .success .success 9 ⟨1, []⟩).updates = [] ∧
    OrderStatus.new.value ≠ OrderStatus.cancelled.value :=
  ⟨by with_unfolding_all rfl, by with_unfolding_all rfl, by with_unfolding_all rfl,
   by decide⟩

/-- C2 (amended): when the balance read fails, the raised error surfaces
unchanged to the caller (503 for a connection error or timeout, the remote
status for a non-2xx reply, 500 for a malformed body), but the saga does
NOT transition the order to `cancelled` — the row keeps status `new` —
and no notification is fired. -/
theorem balance_fail_surfaces_error (req : OrderCreateRequest) (uid : ℤ)
    (bal : BalanceCallResult) (wd : WithdrawCallResult) (nt : NotifyCallResult)
    (now : ℕ) (st : Store) (e : HTTPError) (hwf : st.WF)
    (he : get_user_balance bal = .error e) :
    (create_order_endpoint req uid bal wd nt now st).response = .error e ∧
    (create_order_endpoint req uid bal wd nt now st).notifs = [] ∧
    (create_order_endpoint req uid bal wd nt now st).updates = [] ∧
    (create_order_endpoint req uid bal wd nt now st).store.orders =
      st.orders ++ [finalRow req uid now st .new] ∧
    (∀ m, bal = .requestError m → e.status_code = 503) ∧
    (∀ c m, bal = .httpError c m → e.status_code = c) ∧
    (∀ m, bal = .malformedBody m → e.status_code = 500) := by
  rw [run_balance_error req uid bal wd nt now st e hwf he]
  refine ⟨rfl, rfl, rfl, rfl, ?_, ?_, ?_⟩
  · intro m hm
    subst hm
    simp only [get_user_balance, Except.error.injEq] at he
    rw [← he]
  · intro c m hm
    subst hm
    simp only [get_user_balance, Except.error.injEq] at he
    rw [← he]
  · intro m hm
    subst hm
    simp only [get_user_balance, Except.error.injEq] at he
    rw [← he]

/-- C2 (witness): concrete timeout run, 503 surfaced, no notification. -/
theorem balance_fail_surfaces_error_witness :
    (create_order_endpoint ⟨50, "book"⟩ 1 (.requestError "timeout") .success
        .success 7 ⟨1, []⟩).response =
      .error ⟨503, "Failed to connect to billing service: timeout"⟩ ∧
    (create_order_endpoint ⟨50, "book"⟩ 1 (.requestError "timeout") .success
        .success 7 ⟨1, []⟩).notifs = [] := by
  have h := balance_fail_surfaces_error ⟨50, "book"⟩ 1 (.requestError "timeout")
    .success .success 7 ⟨1, []⟩
    ⟨503, "Failed to connect to billing service: timeout"⟩ emptyStore_WF rfl
  exact ⟨h.1, h.2.1⟩

/-- C6 (counterexample): a run whose balance read fails performs ZERO
status updates and returns with the order still in `new` — the status does
not transition exactly once. -/
theorem exactly_one_transition_cex :
    (handle_create_order (some "3") 20 "mug" (.httpError 500 "oops")
        .success .success 4 ⟨1, []⟩).updates = [] ∧
    (handle_create_order (some "3") 20 "mug" (.httpError 500 "oops")
        .success .success 4 ⟨1, []⟩).store.orders =
      [⟨1, 20, "mug", "new", 4, 4, 3⟩] ∧
    (handle_create_order (some "3") 20 "mug" (.httpError 500 "oops")
        .success .success 4 ⟨1, []⟩).response =
      .error ⟨500, "Billing service error: oops"⟩ :=
  ⟨by with_unfolding_all rfl, by with_unfolding_all rfl, by with_unfolding_all rfl⟩

/-- C6 (amended): every order starts in status `new`, and one
create-order call performs AT MOST one status update on the order it
created — always to `paid` or `cancelled`, never away from them — but on
the balance-read-failure path it performs none, leaving the order in
`new`. -/
theorem status_transitions_at_most_once (req : OrderCreateRequest) (uid : ℤ)
    (bal : BalanceCallResult) (wd : WithdrawCallResult) (nt : NotifyCallResult)
    (now : ℕ) (st : Store) (hwf : st.WF) :
    (create_order req.price req.product_name uid now st).1.status =
      OrderStatus.new.value ∧
    (create_order_endpoint req uid bal wd nt now st).updates.length ≤ 1 ∧
    (∀ u ∈ (create_order_endpoint req uid bal wd nt now st).updates,
      u.1 = st.nextId ∧ (u.2 = OrderStatus.paid ∨ u.2 = OrderStatus.cancelled)) := by
  have H : (create_order_endpoint req uid bal wd nt now st).updates = [] ∨
      ∃ s, (s = OrderStatus.paid ∨ s = OrderStatus.cancelled) ∧
        (create_order_endpoint req uid bal wd nt now st).updates = [(st.nextId, s)] := by
    cases hbv : get_user_balance bal with
    | error e =>
      left
      rw [run_balance_error req uid bal wd nt now st e hwf hbv]
    | ok b =>
      by_cases hgt : req.price > b
      · right
        exact ⟨.cancelled, Or.inr rfl,
          by rw [run_insufficient req uid bal wd nt now st b hwf hbv hgt]⟩
      · cases hwd : withdraw_funds wd with
        | ok x =>
          right
          exact ⟨.paid, Or.inl rfl,
            by rw [run_paid req uid bal wd nt now st b x hwf hbv hgt hwd]⟩
        | error e =>
          right
          exact ⟨.cancelled, Or.inr rfl,
            by rw [run_wd_error req uid bal wd nt now st b e hwf hbv hgt hwd]⟩
  refine ⟨rfl, ?_, ?_⟩
  · rcases H with H | ⟨s, _, H⟩ <;> simp [H]
  · intro u hu
    rcases H with H | ⟨s, hs, H⟩
    · rw [H] at hu
      exact absurd hu (List.not_mem_nil u)
    · rw [H] at hu
      rcases List.mem_singleton.mp hu with rfl
      exact ⟨rfl, hs⟩

/-- C6 (witness): a concrete paid run performs exactly one update, on the
created order, to `paid`. -/
theorem status_transitions_at_most_once_witness :
    (create_order (50 : ℚ) "book" 1 7 ⟨1, []⟩).1.status = OrderStatus.new.value ∧
    (create_order_endpoint ⟨50, "book"⟩ 1 (.success 100) .success .success
        7 ⟨1, []⟩).updates.length ≤ 1 := by
  have h := status_transitions_at_most_once ⟨50, "book"⟩ 1 (.success 100) .success
    .success 7 ⟨1, []⟩ emptyStore_WF
  exact ⟨h.1, h.2.1⟩

/-- C3: whenever the withdraw step fails (after a successful balance read
showing sufficient funds), the order is transitioned to `cancelled` before
the call returns, and the response is an error whose status code reflects
the underlying debit failure — 503 for unreachable/timeout, 400 for
insufficient funds at debit time, 404 for an unknown account, 502 for any
other non-2xx — with a message stating the order was created but payment
failed. -/
theorem withdraw_fail_cancels (req : OrderCreateRequest) (uid : ℤ)
    (bal : BalanceCallResult) (wd : WithdrawCallResult) (nt : NotifyCallResult)
    (now : ℕ) (st : Store) (b : ℚ) (e : HTTPError) (hwf : st.WF)
    (hb : get_user_balance bal = .ok b) (hle : ¬req.price > b)
    (hwd : withdraw_funds wd = .error e) :
    (create_order_endpoint req uid bal wd nt now st).response =
      .error ⟨e.status_code, "Order created but payment failed: " ++ e.detail⟩ ∧
    rowStatus (create_order_endpoint req uid bal wd nt now st) st.nextId =
      some OrderStatus.cancelled.value ∧
    (∀ m, wd = .requestError m → e.status_code = 503) ∧
    (∀ m, wd = .httpError 400 m → e.status_code = 400) ∧
    (∀ m, wd = .httpError 404 m → e.status_code = 404) ∧
    (∀ c m, wd = .httpError c m → c ≠ 400 → c ≠ 404 → e.status_code = 502) ∧
    (∀ m, wd = .unexpectedError m → e.status_code = 500) := by
  rw [run_wd_error req uid bal wd nt now st b e hwf hb hle hwd]
  refine ⟨rfl, rowStatus_append st hwf _ _ rfl _ _ _, ?_, ?_, ?_, ?_, ?_⟩
  · intro m hm
    subst hm
    simp only [withdraw_funds, Except.error.injEq] at hwd
    rw [← hwd]
  · intro m hm
    subst hm
    simp only [withdraw_funds] at hwd
    norm_num at hwd
    rw [← hwd]
  · intro m hm
    subst hm
    simp only [withdraw_funds] at hwd
    norm_num at hwd
    rw [← hwd]
  · intro c m hm hc4 hc44
    subst hm
    simp only [withdraw_funds, if_neg hc4, if_neg hc44, Except.error.injEq] at hwd
    rw [← hwd]
  · intro m hm
    subst hm
    simp only [withdraw_funds, Except.error.injEq] at hwd
    rw [← hwd]

/-- C3 (witness): debit rejected with 400 (insufficient funds at debit
time) cancels the concrete order and surfaces a 400 with the
created-but-payment-failed message. -/
theorem withdraw_fail_cancels_witness :
    (create_order_endpoint ⟨50, "book"⟩ 1 (.success 100) (.httpError 400 "nsf")
        .success 7 ⟨1, []⟩).response =
      .error ⟨400,
        "Order created but payment failed: Insufficient funds or invalid amount"⟩ ∧
    rowStatus (create_order_endpoint ⟨50, "book"⟩ 1 (.success 100)
        (.httpError 400 "nsf") .success 7 ⟨1, []⟩) 1 =
      some OrderStatus.cancelled.value := by
  have h := withdraw_fail_cancels ⟨50, "book"⟩ 1 (.success 100) (.httpError 400 "nsf")
    .success 7 ⟨1, []⟩ 100 ⟨400, "Insufficient funds or invalid amount"⟩
    emptyStore_WF rfl (by with_unfolding_all decide) rfl
  exact ⟨h.1, h.2.1⟩

/-- C4: when the balance read succeeds and price > balance, the order is
transitioned to `cancelled`, no withdraw call is made, and the call
returns normally (HTTP 201) with status `cancelled` and a message citing
insufficient funds. -/
theorem insufficient_funds_outcome (req : OrderCreateRequest) (uid : ℤ)
    (bal : BalanceCallResult) (wd : WithdrawCallResult) (nt : NotifyCallResult)
    (now : ℕ) (st : Store) (b : ℚ) (hwf : st.WF)
    (hb : get_user_balance bal = .ok b) (hgt : req.price > b) :
    (create_order_endpoint req uid bal wd nt now st).response =
      .ok ⟨st.nextId, req.price, req.product_name, OrderStatus.cancelled.value,
           uid, "Order cancelled due to insufficient funds"⟩ ∧
    (create_order_endpoint req uid bal wd nt now st).debits = [] ∧
    rowStatus (create_order_endpoint req uid bal wd nt now st) st.nextId =
      some OrderStatus.cancelled.value := by
  rw [run_insufficient req uid bal wd nt now st b hwf hb hgt]
  exact ⟨rfl, rfl, rowStatus_append st hwf _ _ rfl _ _ _⟩

/-- C4 (witness): price 150 against balance 100 ends cancelled with no
debit attempt (the spec's concrete scenario). -/
theorem insufficient_funds_outcome_witness :
    (create_order_endpoint ⟨150, "book"⟩ 1 (.success 100) .success .success
        7 ⟨1, []⟩).response =
      .ok ⟨1, 150, "book", OrderStatus.cancelled.value, 1,
           "Order cancelled due to insufficient funds"⟩ ∧
    (create_order_endpoint ⟨150, "book"⟩ 1 (.success 100) .success .success
        7 ⟨1, []⟩).debits = [] := by
  have h := insufficient_funds_outcome ⟨150, "book"⟩ 1 (.success 100) .success
    .success 7 ⟨1, []⟩ 100 emptyStore_WF rfl (by with_unfolding_all decide)
  exact ⟨h.1, h.2.1⟩

/-- C5: when the balance read succeeds, balance ≥ price, and the withdraw
succeeds, the final status is `paid`, the amount debited equals the
order's price, and the success message displays exactly that price as the
deducted amount. -/
theorem paid_outcome (req : OrderCreateRequest) (uid : ℤ)
    (bal : BalanceCallResult) (wd : WithdrawCallResult) (nt : NotifyCallResult)
    (now : ℕ) (st : Store) (b : ℚ) (x : Bool) (hwf : st.WF)
    (hb : get_user_balance bal = .ok b) (hle : ¬req.price > b)
    (hwd : withdraw_funds wd = .ok x) :
    (create_order_endpoint req uid bal wd nt now st).response =
      .ok ⟨st.nextId, req.price, req.product_name, OrderStatus.paid.value, uid,
           "Order created and paid successfully. $" ++ formatPrice2 req.price ++
             " deducted from your account."⟩ ∧
    (create_order_endpoint req uid bal wd nt now st).debits = [(uid, req.price)] ∧
    rowStatus (create_order_endpoint req uid bal wd nt now st) st.nextId =
      some OrderStatus.paid.value := by
  rw [run_paid req uid bal wd nt now st b x hwf hb hle hwd]
  exact ⟨rfl, rfl, rowStatus_append st hwf _ _ rfl _ _ _⟩

/-- C5 (witness): the spec's concrete scenario — price 50, balance 100,
withdraw succeeds — ends `paid`, debits exactly 50, and the message shows
"$50.00 deducted". -/
theorem paid_outcome_witness :
    (create_order_endpoint ⟨50, "book"⟩ 1 (.success 100) .success .success
        7 ⟨1, []⟩).response =
      .ok ⟨1, 50, "book", OrderStatus.paid.value, 1,
           "Order created and paid successfully. $" ++ formatPrice2 50 ++
             " deducted from your account."⟩ ∧
    (create_order_endpoint ⟨50, "book"⟩ 1 (.success 100) .success .success
        7 ⟨1, []⟩).debits = [(1, 50)] ∧
    formatPrice2 50 = "50.00" := by
  have h := paid_outcome ⟨50, "book"⟩ 1 (.success 100) .success .success
    7 ⟨1, []⟩ 100 true emptyStore_WF rfl (by with_unfolding_all decide) rfl
  exact ⟨h.1, h.2.1, by with_unfolding_all decide⟩

/-- C8: the outcome of the notification send is never inspected — two
executions of the same create-order call that differ only in the
notification oracle produce identical results (HTTP outcome, body, store,
and every log). -/
theorem notify_outcome_never_changes_result (header : Option String) (price : ℚ)
    (nm : String) (bal : BalanceCallResult) (wd : WithdrawCallResult)
    (nt nt' : NotifyCallResult) (now : ℕ) (st : Store) :
    handle_create_order header price nm bal wd nt now st =
      handle_create_order header price nm bal wd nt' now st := rfl

/-- C7: when the header dependency or the body validation rejects the
request, the call answers with a client (4xx) error and the store — and
every side-effect log — is untouched. -/
theorem validation_fail_no_persist (header : Option String) (price : ℚ)
    (nm : String) (bal : BalanceCallResult) (wd : WithdrawCallResult)
    (nt : NotifyCallResult) (now : ℕ) (st : Store)
    (h : (∃ e, get_user_id header = .error e) ∨
         (∃ uid, get_user_id header = .ok uid ∧
            ∃ e, validateOrderCreateRequest price nm = .error e)) :
    (handle_create_order header price nm bal wd nt now st).store = st ∧
    (handle_create_order header price nm bal wd nt now st).updates = [] ∧
    (handle_create_order header price nm bal wd nt now st).debits = [] ∧
    ∃ e, (handle_create_order header price nm bal wd nt now st).response = .error e ∧
      400 ≤ e.status_code ∧ e.status_code < 500 := by
  rcases h with ⟨e, he⟩ | ⟨uid, hu, e, he⟩
  · have hc := get_user_id_error_code header e he
    refine ⟨?_, ?_, ?_, e, ?_, by rw [hc], by rw [hc]; norm_num⟩ <;>
      simp [handle_create_order, he]
  · have hc := validate_error_code price nm e he
    refine ⟨?_, ?_, ?_, e, ?_, by rw [hc]; norm_num, by rw [hc]; norm_num⟩ <;>
      simp [handle_create_order, hu, he]

/-- C7 (witness): a non-integer user-id header gets rejected with the
store untouched. -/
theorem validation_fail_no_persist_witness :
    (handle_create_order (some "abc") 50 "book" (.success 100) .success .success
        7 ⟨1, []⟩).store = ⟨1, []⟩ ∧
    (handle_create_order (some "abc") 50 "book" (.success 100) .success .success
        7 ⟨1, []⟩).updates = [] := by
  have h := validation_fail_no_persist (some "abc") 50 "book" (.success 100)
    .success .success 7 ⟨1, []⟩
    (Or.inl ⟨⟨400, "Invalid User ID format. Must be an integer"⟩, by rfl⟩)
  exact ⟨h.1, h.2.1⟩

/-- C9 (counterexample): with a valid authenticated user 1, requesting the
orders of path user id 0 (which differs from 1) is rejected with 400, not
with the forbidden 403 error the claim requires for every mismatch. -/
theorem orders_zero_id_cex :
    get_user_orders 0 (some "1") 0 100 ⟨1, []⟩ =
      .error ⟨400, "User ID must be greater than 0"⟩ ∧
    get_user_id (some "1") = .ok 1 ∧
    (0 : ℤ) ≠ (1 : ℤ) ∧ (400 : ℕ) ≠ 403 :=
  ⟨by rfl, by rfl, by decide, by decide⟩

/-- C9 (amended): with a valid authenticated user, a non-positive path
user id is rejected with 400; a positive path user id different from the
authenticated one is rejected with the forbidden 403 error; when they are
equal, the call returns orders belonging to that user only. -/
theorem orders_access_control (requested : ℤ) (header : Option String)
    (skip limit : ℕ) (st : Store) (auth : ℤ)
    (ha : get_user_id header = .ok auth) :
    (requested ≤ 0 →
      get_user_orders requested header skip limit st =
        .error ⟨400, "User ID must be greater than 0"⟩) ∧
    (0 < requested → requested ≠ auth →
      get_user_orders requested header skip limit st =
        .error ⟨403, "You can only access your own orders"⟩) ∧
    (requested = auth →
      ∃ l, get_user_orders requested header skip limit st = .ok l ∧
        ∀ o ∈ l, o ∈ st.orders ∧ o.user_id = requested) := by
  refine ⟨?_, ?_, ?_⟩
  · intro hle
    simp only [get_user_orders, ha, if_pos hle]
  · intro hpos hne
    simp only [get_user_orders, ha, if_neg (not_le.mpr hpos), if_pos hne]
  · intro heq
    have hpos : 0 < auth := get_user_id_pos header auth ha
    have hle : ¬requested ≤ 0 := by rw [heq]; exact not_le.mpr hpos
    have hne : ¬requested ≠ auth := by simp [heq]
    simp only [get_user_orders, ha, if_neg hle, if_neg hne]
    refine ⟨_, rfl, ?_⟩
    intro o ho
    have h1 := List.mem_of_mem_take ho
    have h2 := List.mem_of_mem_drop h1
    unfold sortByCreatedDesc at h2
    have h3 := (List.perm_insertionSort _ _).mem_iff.mp h2
    obtain ⟨hmem, hp⟩ := List.mem_filter.mp h3
    refine ⟨hmem, ?_⟩
    simpa using hp

/-- C9 (witness): authenticated user 1 asking for user 2's orders gets
403. -/
theorem orders_access_control_witness :
    get_user_orders 2 (some "1") 0 100 ⟨1, []⟩ =
      .error ⟨403, "You can only access your own orders"⟩ := by
  have h := orders_access_control 2 (some "1") 0 100 ⟨1, []⟩ 1 (by rfl)
  exact h.2.1 (by decide) (by decide)

/-- A body accepted by validation is exactly the rounded price and the
stripped name. -/
lemma validate_ok_shape (price : ℚ) (nm : String) (req : OrderCreateRequest)
    (hv : validateOrderCreateRequest price nm = .ok req) :
    req = ⟨round2 price, pyStrip nm⟩ := by
  unfold validateOrderCreateRequest at hv
  split_ifs at hv
  all_goals
    first
      | exact Except.noConfusion hv
      | (injection hv with h; exact h.symm)

lemma ratFloor_eq_intFloor (a : ℚ) : a.floor = ⌊a⌋ := by
  rw [Rat.floor_def', Rat.floor_def]

lemma mkRat_cast_div (n : ℤ) (d : ℕ) : (mkRat n d : ℚ) = (n : ℚ) / (d : ℚ) := by
  rw [Rat.mkRat_eq_divInt, Rat.divInt_eq_div]
  norm_cast

/-- A positive price below 0.005 rounds to zero at two decimals. -/
lemma round2_small (price : ℚ) (h0 : 0 < price) (h2 : price < 1/200) :
    round2 price = 0 := by
  have hhalf : (mkRat 1 2 : ℚ) = 1/2 := by rw [mkRat_cast_div]; norm_num
  have hx0 : (0 : ℚ) < price * 100 := by positivity
  have hx : price * 100 < mkRat 1 2 := by rw [hhalf]; linarith
  have hfl : (price * 100).floor = 0 := by
    rw [ratFloor_eq_intFloor, Int.floor_eq_zero_iff, Set.mem_Ico]
    constructor
    · exact le_of_lt hx0
    · rw [hhalf] at hx; linarith
  have hp : pyRound (price * 100) = 0 := by
    simp only [pyRound, hfl]
    rw [if_pos (by push_cast; linarith [hx])]
  unfold round2
  rw [hp, mkRat_cast_div]
  norm_num

/-- C10: validation rounds the submitted price to two decimals; that
rounded value is what gets persisted in the order row, compared against
the balance, sent as the debit amount, and echoed in the response; and a
submitted price strictly between 0 and 0.005 passes the `price > 0`
validation yet rounds to 0. -/
theorem price_rounded_everywhere (price : ℚ) (nm : String) (req : OrderCreateRequest)
    (uid : ℤ) (bal : BalanceCallResult) (wd : WithdrawCallResult)
    (nt : NotifyCallResult) (now : ℕ) (st : Store) (hwf : st.WF)
    (hv : validateOrderCreateRequest price nm = .ok req) :
    req.price = round2 price ∧
    (∀ o ∈ (create_order_endpoint req uid bal wd nt now st).store.orders,
      o ∈ st.orders ∨ o.price = round2 price) ∧
    (∀ d ∈ (create_order_endpoint req uid bal wd nt now st).debits,
      d = (uid, round2 price)) ∧
    (∀ resp, (create_order_endpoint req uid bal wd nt now st).response = .ok resp →
      resp.price = round2 price) ∧
    (∀ b, get_user_balance bal = .ok b →
      (round2 price > b ↔ (create_order_endpoint req uid bal wd nt now st).debits = [])) ∧
    (0 < price → price < 1/200 → round2 price = 0) := by
  obtain rfl : req = ⟨round2 price, pyStrip nm⟩ := validate_ok_shape price nm req hv
  cases hbv : get_user_balance bal with
  | error e =>
    rw [run_balance_error _ uid bal wd nt now st e hwf hbv]
    refine ⟨rfl, ?_, ?_, ?_, ?_, fun h0 h2 => round2_small price h0 h2⟩
    · intro o ho
      rcases List.mem_append.mp ho with h | h
      · exact Or.inl h
      · right; rcases List.mem_singleton.mp h with rfl; rfl
    · intro d hd
      exact absurd hd (List.not_mem_nil d)
    · intro resp hresp
      exact Except.noConfusion hresp
    · intro b hb
      exact Except.noConfusion hb
  | ok b =>
    by_cases hgt : round2 price > b
    · rw [run_insufficient _ uid bal wd nt now st b hwf hbv hgt]
      refine ⟨rfl, ?_, ?_, ?_, ?_, fun h0 h2 => round2_small price h0 h2⟩
      · intro o ho
        rcases List.mem_append.mp ho with h | h
        · exact Or.inl h
        · right; rcases List.mem_singleton.mp h with rfl; rfl
      · intro d hd
        exact absurd hd (List.not_mem_nil d)
      · intro resp hresp
        injection hresp with h
        rw [← h]
      · intro b' hb'
        injection hb' with hb2
        subst hb2
        exact ⟨fun _ => rfl, fun _ => hgt⟩
    · cases hwd : withdraw_funds wd with
      | ok x =>
        rw [run_paid _ uid bal wd nt now st b x hwf hbv hgt hwd]
        refine ⟨rfl, ?_, ?_, ?_, ?_, fun h0 h2 => round2_small price h0 h2⟩
        · intro o ho
          rcases List.mem_append.mp ho with h | h
          · exact Or.inl h
          · right; rcases List.mem_singleton.mp h with rfl; rfl
        · intro d hd
          rcases List.mem_singleton.mp hd with rfl; rfl
        · intro resp hresp
          injection hresp with h
          rw [← h]
        · intro b' hb'
          injection hb' with hb2
          subst hb2
          refine ⟨fun hgt2 => absurd hgt2 hgt, fun hnil => ?_⟩
          exact absurd hnil (by simp)
      | error e =>
        rw [run_wd_error _ uid bal wd nt now st b e hwf hbv hgt hwd]
        refine ⟨rfl, ?_, ?_, ?_, ?_, fun h0 h2 => round2_small price h0 h2⟩
        · intro o ho
          rcases List.mem_append.mp ho with h | h
          · exact Or.inl h
          · right; rcases List.mem_singleton.mp h with rfl; rfl
        · intro d hd
          rcases List.mem_singleton.mp hd with rfl; rfl
        · intro resp hresp
          exact Except.noConfusion hresp
        · intro b' hb'
          injection hb' with hb2
          subst hb2
          refine ⟨fun hgt2 => absurd hgt2 hgt, fun hnil => ?_⟩
          exact absurd hnil (by simp)

/-- C10 (witness): the submitted price 1/250 = 0.004 passes validation and
is persisted as 0. -/
theorem price_rounded_everywhere_witness :
    validateOrderCreateRequest (mkRat 1 250) "pen" = .ok ⟨0, "pen"⟩ ∧
    round2 (mkRat 1 250) = 0 ∧
    (0 : ℚ) < mkRat 1 250 := by
  have h := price_rounded_everywhere (mkRat 1 250) "pen" ⟨0, "pen"⟩ 1 (.success 100)
    .success .success 7 ⟨1, []⟩ emptyStore_WF (by with_unfolding_all rfl)
  refine ⟨by with_unfolding_all rfl, ?_, by with_unfolding_all decide⟩
  exact h.2.2.2.2.2 (by rw [mkRat_cast_div]; norm_num)
    (by rw [mkRat_cast_div]; norm_num)

end OrderService
